import Mathlib

/-!
Verification of the macro-dashboard computation pipeline (`src/dashboard.py`).

The dashboard's computational core is three pure formula functions over a
fixed integer time domain `np.arange(0, 11)` and one callback `update_graph`
that evaluates all three and builds the figure.  We embed the arithmetic
over the reals (the source computes with numpy floats; `np.sin`/`np.cos`
are embedded as `Real.sin`/`Real.cos`).
-/

namespace MacroDashboard

/-- The time domain `years = np.arange(0, 11)` (dashboard.py line 156):
the integers 0,1,...,10. -/
def years : List ℕ := List.range 11

/-- Embedding of `calculate_gdp(years, A, g): return A * (1 + g) ** years`
(dashboard.py lines 72-73), pointwise over the domain. -/
noncomputable def calculate_gdp (ys : List ℕ) (A g : ℝ) : List ℝ :=
  ys.map (fun t : ℕ => A * (1 + g) ^ t)

/-- Embedding of `calculate_inflation(years, π_target, α): return π_target + α * np.sin(years / 2)`
(dashboard.py lines 75-76), pointwise over the domain. -/
noncomputable def calculate_inflation (ys : List ℕ) (π_target α : ℝ) : List ℝ :=
  ys.map (fun t : ℕ => π_target + α * Real.sin ((t : ℝ) / 2))

/-- Embedding of `calculate_unemployment(years, u_natural, β): return u_natural + β * np.cos(years / 3)`
(dashboard.py lines 78-79), pointwise over the domain. -/
noncomputable def calculate_unemployment (ys : List ℕ) (u_natural β : ℝ) : List ℝ :=
  ys.map (fun t : ℕ => u_natural + β * Real.cos ((t : ℝ) / 3))

/-- The data content of the figure built by `update_graph`: the shared time
domain and the three traces added in lines 165-167 of dashboard.py. -/
structure Figure where
  domain : List ℕ
  gdp : List ℝ
  inflation : List ℝ
  unemployment : List ℝ

/-- Embedding of `update_graph` (dashboard.py lines 155-181): builds `years`,
evaluates the three formulas on it, and returns the figure containing the
three series. -/
noncomputable def update_graph
    (gdp_A gdp_g inf_target inf_alpha unemp_natural unemp_beta : ℝ) : Figure :=
  { domain := years
    gdp := calculate_gdp years gdp_A gdp_g
    inflation := calculate_inflation years inf_target inf_alpha
    unemployment := calculate_unemployment years unemp_natural unemp_beta }

/-- Evaluation of one formula on raw callback inputs.  Dash delivers `None`
for a cleared input field; the Python arithmetic in the `calculate_*`
functions then raises `TypeError`, which aborts `update_graph` before any
trace is added to the figure.  A missing parameter therefore yields an
error tagged with the formula's key, a present pair of parameters yields
the formula's series. -/
noncomputable def evalFormula (key : String) (p q : Option ℝ) (f : ℝ → ℝ → List ℝ) :
    Except String (List ℝ) :=
  match p, q with
  | some x, some y => .ok (f x y)
  | _, _ => .error key

/-- Embedding of `update_graph` on raw callback inputs: the three formulas
are evaluated in source order (dashboard.py lines 158-160) and the figure is
built only after all three succeed (lines 162-167); a failure in any one
evaluation propagates out before any trace is produced. -/
noncomputable def update_graphChecked
    (gdp_A gdp_g inf_target inf_alpha unemp_natural unemp_beta : Option ℝ) :
    Except String Figure :=
  match evalFormula "GDP" gdp_A gdp_g (calculate_gdp years) with
  | .error e => .error e
  | .ok gdp =>
    match evalFormula "Inflation" inf_target inf_alpha (calculate_inflation years) with
    | .error e => .error e
    | .ok inflation =>
      match evalFormula "Unemployment" unemp_natural unemp_beta (calculate_unemployment years) with
      | .error e => .error e
      | .ok unemployment => .ok ⟨years, gdp, inflation, unemployment⟩

/-- Modelled from the spec: publication to the renderer.  The Render Adapter
(the Dash front end) is an external collaborator not in src/; per the spec,
a successful recompute replaces the displayed bundle wholesale, and on a
failed recompute "the previously published bundle is retained". -/
noncomputable def publish (prev : Figure) (r : Except String Figure) : Figure :=
  match r with
  | .ok fig => fig
  | .error _ => prev

/-- A figure with no data, used as a concrete previously-published state. -/
def emptyFigure : Figure := ⟨[], [], [], []⟩

/-- One snapshot of the six parameter values carried by a change event. -/
structure Params where
  gdp_A : ℝ
  gdp_g : ℝ
  inf_target : ℝ
  inf_alpha : ℝ
  unemp_natural : ℝ
  unemp_beta : ℝ

/-- Modelled from the spec and the callback wiring (dashboard.py lines
146-154): all six inputs are `Input`s of the one callback, so the framework
invokes `update_graph` once per change event with the parameter values
current at that event.  There is no debounce, no Pending/Computing state and
no coalescing in the source (the spec's §9 design note records this:
"the source recomputes on every individual input change with no debounce").
Given the sequence of change events, each carrying its parameter snapshot,
this returns the sequence of recomputations the wiring performs. -/
noncomputable def recomputesFor (events : List Params) : List Figure :=
  events.map (fun p =>
    update_graph p.gdp_A p.gdp_g p.inf_target p.inf_alpha p.unemp_natural p.unemp_beta)

/-- A named parameter with its current value (spec §3). -/
structure Parameter where
  name : String
  value : ℚ

/-- A change notification carrying the parameter name and the old and new
value (spec §4.2). -/
structure ChangeNotice where
  param : String
  oldValue : ℚ
  newValue : ℚ

/-- Lookup of a parameter's current value by name (spec §4.2 `get`;
absent name yields `none`). -/
def getParam : List Parameter → String → Option ℚ
  | [], _ => none
  | p :: ps, n => if p.name = n then some p.value else getParam ps n

/-- Modelled from the spec: the Parameter Store's `set` operation is not in
src/ — parameter state lives in the framework's input components, and only
the callback wiring (dashboard.py lines 146-154) appears in the source.
Per spec §4.2, `set` stores the new value and emits a change notification
containing the old and new value, with no-op suppression ("setting the same
value twice produces one notification only if the value actually changed");
an unknown name fails with `NotFound`. -/
def setParam : List Parameter → String → ℚ → Except String (List Parameter × List ChangeNotice)
  | [], _, _ => .error "NotFound"
  | p :: ps, n, v =>
    if p.name = n then
      if p.value = v then .ok (p :: ps, [])
      else .ok (⟨n, v⟩ :: ps, [⟨n, p.value, v⟩])
    else
      match setParam ps n v with
      | .ok (ps', ns) => .ok (p :: ps', ns)
      | .error e => .error e

/-- Indexing a map over `List.range`. -/
theorem getElem_map_range {α : Type} (f : ℕ → α) {i n : ℕ} (h : i < n) :
    ((List.range n).map f)[i]? = some (f i) := by
  rw [List.getElem?_map, List.getElem?_range h]; rfl

/-- Pointwise description of `calculate_gdp` on the standard domain. -/
theorem calculate_gdp_getElem (A g : ℝ) {i : ℕ} (h : i < 11) :
    (calculate_gdp years A g)[i]? = some (A * (1 + g) ^ i) :=
  getElem_map_range _ h

/-- Pointwise description of `calculate_inflation` on the standard domain. -/
theorem calculate_inflation_getElem (π_target α : ℝ) {i : ℕ} (h : i < 11) :
    (calculate_inflation years π_target α)[i]? = some (π_target + α * Real.sin ((i : ℝ) / 2)) :=
  getElem_map_range _ h

/-- Pointwise description of `calculate_unemployment` on the standard domain. -/
theorem calculate_unemployment_getElem (u_natural β : ℝ) {i : ℕ} (h : i < 11) :
    (calculate_unemployment years u_natural β)[i]? = some (u_natural + β * Real.cos ((i : ℝ) / 3)) :=
  getElem_map_range _ h

/-- C1: the exponential-growth formula satisfies
`values[i] = base * (1+rate)^domain[i]` on the whole domain 0..10, and with
`base = 10`, `rate = 0.03` the series has `values[0] = 10` and
`values[10] = 10 * 1.03^10`, which lies in (13.439, 13.440). -/
theorem gdp_exponential_growth (A g : ℝ) :
    (∀ i, i < 11 → (calculate_gdp years A g)[i]? = some (A * (1 + g) ^ i)) ∧
    (calculate_gdp years 10 0.03)[0]? = some 10 ∧
    (calculate_gdp years 10 0.03)[10]? = some (10 * (1.03 : ℝ) ^ (10 : ℕ)) ∧
    (13.439 : ℝ) < 10 * (1.03 : ℝ) ^ (10 : ℕ) ∧ 10 * (1.03 : ℝ) ^ (10 : ℕ) < (13.440 : ℝ) := by
  refine ⟨fun i h => calculate_gdp_getElem A g h, ?_, ?_, ?_, ?_⟩
  · rw [calculate_gdp_getElem 10 0.03 (by norm_num)]
    norm_num
  · rw [calculate_gdp_getElem 10 0.03 (by norm_num)]
    norm_num
  · norm_num
  · norm_num

/-- Witness for C1 at the concrete index i = 10. -/
theorem gdp_exponential_growth_witness :
    (10 : ℕ) < 11 ∧ (calculate_gdp years 10 0.03)[10]? = some (10 * ((1 : ℝ) + 0.03) ^ (10 : ℕ)) :=
  ⟨by norm_num, (gdp_exponential_growth 10 0.03).1 10 (by norm_num)⟩

/-- C4: the cyclical-deviation formula satisfies
`values[i] = target + amplitude * sin(domain[i]/period)` with period 2 on the
whole domain, and with `target = 2`, `amplitude = 0.5` the value at domain
point t = 0 is `2 + 0.5*sin(0) = 2` and at t = 2 it is `2 + 0.5*sin(1)`. -/
theorem inflation_cyclical_deviation (π_target α : ℝ) :
    (∀ i : ℕ, i < 11 →
      (calculate_inflation years π_target α)[i]? = some (π_target + α * Real.sin ((i : ℝ) / 2))) ∧
    (calculate_inflation years 2 0.5)[0]? = some 2 ∧
    (calculate_inflation years 2 0.5)[2]? = some (2 + (0.5 : ℝ) * Real.sin 1) := by
  refine ⟨fun i h => calculate_inflation_getElem π_target α h, ?_, ?_⟩
  · rw [calculate_inflation_getElem 2 0.5 (by norm_num)]
    norm_num
  · rw [calculate_inflation_getElem 2 0.5 (by norm_num)]
    norm_num

/-- Witness for C4 at the concrete index i = 2. -/
theorem inflation_cyclical_deviation_witness :
    (2 : ℕ) < 11 ∧
      (calculate_inflation years 2 0.5)[2]? = some (2 + (0.5 : ℝ) * Real.sin ((2 : ℕ) / 2)) :=
  ⟨by norm_num, (inflation_cyclical_deviation 2 0.5).1 2 (by norm_num)⟩

/-- C5: the third formula has the cyclical-deviation shape with cosine,
`values[i] = target + amplitude * cos(domain[i]/period)`, and its period 3 is
distinct from the sin formula's period 2. -/
theorem unemployment_cyclical_cosine (u_natural β : ℝ) :
    (∀ i : ℕ, i < 11 →
      (calculate_unemployment years u_natural β)[i]? =
        some (u_natural + β * Real.cos ((i : ℝ) / 3))) ∧
    (3 : ℝ) ≠ 2 := by
  exact ⟨fun i h => calculate_unemployment_getElem u_natural β h, by norm_num⟩

/-- Witness for C5 at the concrete index i = 3. -/
theorem unemployment_cyclical_cosine_witness :
    (3 : ℕ) < 11 ∧
      (calculate_unemployment years 4 (-0.5))[3]? =
        some (4 + (-0.5 : ℝ) * Real.cos ((3 : ℕ) / 3)) :=
  ⟨by norm_num, (unemployment_cyclical_cosine 4 (-0.5)).1 3 (by norm_num)⟩

/-- C2: `update_graph` is deterministic — two invocations on equal parameter
tuples yield the same domain and the same three series; the result depends on
nothing but the six parameter values. -/
theorem update_graph_deterministic
    (a₁ g₁ t₁ α₁ u₁ b₁ a₂ g₂ t₂ α₂ u₂ b₂ : ℝ)
    (hA : a₁ = a₂) (hG : g₁ = g₂) (hT : t₁ = t₂) (hα : α₁ = α₂)
    (hU : u₁ = u₂) (hB : b₁ = b₂) :
    update_graph a₁ g₁ t₁ α₁ u₁ b₁ = update_graph a₂ g₂ t₂ α₂ u₂ b₂ := by
  subst hA hG hT hα hU hB
  rfl

/-- Witness for C2 at a concrete parameter tuple. -/
theorem update_graph_deterministic_witness :
    update_graph 10 0.03 2 0.5 4 (-0.5) = update_graph 10 0.03 2 0.5 4 (-0.5) :=
  update_graph_deterministic 10 0.03 2 0.5 4 (-0.5) 10 0.03 2 0.5 4 (-0.5)
    rfl rfl rfl rfl rfl rfl

/-- C6: every series in one figure has the same length as the domain, and all
three series are computed over the one shared domain of the figure. -/
theorem bundle_aligned (a g t α u b : ℝ) :
    (update_graph a g t α u b).gdp.length = (update_graph a g t α u b).domain.length ∧
    (update_graph a g t α u b).inflation.length = (update_graph a g t α u b).domain.length ∧
    (update_graph a g t α u b).unemployment.length = (update_graph a g t α u b).domain.length ∧
    (update_graph a g t α u b).gdp = calculate_gdp (update_graph a g t α u b).domain a g ∧
    (update_graph a g t α u b).inflation =
      calculate_inflation (update_graph a g t α u b).domain t α ∧
    (update_graph a g t α u b).unemployment =
      calculate_unemployment (update_graph a g t α u b).domain u b := by
  refine ⟨?_, ?_, ?_, rfl, rfl, rfl⟩ <;>
    simp [update_graph, calculate_gdp, calculate_inflation, calculate_unemployment]

/-- C10: each series depends only on its own two parameters — the GDP series
is unchanged under any change of the inflation and unemployment parameters,
and symmetrically for the other two series. -/
theorem series_parameter_separation
    (a g t α u b a' g' t' α' u' b' : ℝ) :
    (a = a' → g = g' →
      (update_graph a g t α u b).gdp = (update_graph a' g' t' α' u' b').gdp) ∧
    (t = t' → α = α' →
      (update_graph a g t α u b).inflation = (update_graph a' g' t' α' u' b').inflation) ∧
    (u = u' → b = b' →
      (update_graph a g t α u b).unemployment =
        (update_graph a' g' t' α' u' b').unemployment) := by
  refine ⟨fun h₁ h₂ => ?_, fun h₁ h₂ => ?_, fun h₁ h₂ => ?_⟩ <;> subst h₁ h₂ <;> rfl

/-- Witness for C10: with shared GDP parameters and different other
parameters, the three independence implications hold at concrete inputs. -/
theorem series_parameter_separation_witness :
    (update_graph 10 0.03 2 0.5 4 (-0.5)).gdp = (update_graph 10 0.03 7 8 9 11).gdp ∧
    (update_graph 10 0.03 2 0.5 4 (-0.5)).inflation = (update_graph 7 8 2 0.5 9 11).inflation ∧
    (update_graph 10 0.03 2 0.5 4 (-0.5)).unemployment =
      (update_graph 7 8 9 11 4 (-0.5)).unemployment :=
  ⟨(series_parameter_separation 10 0.03 2 0.5 4 (-0.5) 10 0.03 7 8 9 11).1 rfl rfl,
   (series_parameter_separation 10 0.03 2 0.5 4 (-0.5) 7 8 2 0.5 9 11).2.1 rfl rfl,
   (series_parameter_separation 10 0.03 2 0.5 4 (-0.5) 7 8 9 11 4 (-0.5)).2.2 rfl rfl⟩

/-- C3: recomputation is all-or-nothing — when any one formula evaluation
fails, the published figure is exactly the previously published one, and
when the recompute succeeds, the produced figure is the complete fresh
bundle of all three series from the one parameter snapshot; a mix of stale
and fresh series is impossible. -/
theorem all_or_nothing (A g t a u b : Option ℝ) (prev : Figure) :
    (∀ e, update_graphChecked A g t a u b = Except.error e →
      publish prev (update_graphChecked A g t a u b) = prev) ∧
    (∀ fig, update_graphChecked A g t a u b = Except.ok fig →
      ∃ A' g' t' a' u' b', A = some A' ∧ g = some g' ∧ t = some t' ∧ a = some a' ∧
        u = some u' ∧ b = some b' ∧ fig = update_graph A' g' t' a' u' b') := by
  constructor
  · intro e he
    simp [publish, he]
  · intro fig hfig
    cases A <;> cases g <;> cases t <;> cases a <;> cases u <;> cases b <;>
      simp_all [update_graphChecked, evalFormula, update_graph]

/-- Witness for C3: with the first GDP parameter missing, the recompute
fails on the GDP formula and the previously published figure is retained. -/
theorem all_or_nothing_witness :
    update_graphChecked none (some 0.03) (some 2) (some 0.5) (some 4) (some (-0.5)) =
      Except.error "GDP" ∧
    publish emptyFigure
      (update_graphChecked none (some 0.03) (some 2) (some 0.5) (some 4) (some (-0.5))) =
      emptyFigure :=
  ⟨rfl,
   (all_or_nothing none (some 0.03) (some 2) (some 0.5) (some 4) (some (-0.5)) emptyFigure).1
     "GDP" rfl⟩

/-- C8 counterexample: two rapid successive parameter changes produce two
recomputes, not exactly one — the wiring has no coalescing. -/
theorem no_coalescing_counterexample :
    (recomputesFor [⟨10, 0.03, 2, 0.5, 4, -0.5⟩, ⟨11, 0.03, 2, 0.5, 4, -0.5⟩]).length ≠ 1 := by
  simp [recomputesFor]

/-- C8 amended: N successive change events produce exactly N recomputes, one
per event, and the last recompute reflects the latest event's parameter
values (no lost update) — but rapid changes are never coalesced into one. -/
theorem one_recompute_per_change (events : List Params) :
    (recomputesFor events).length = events.length ∧
    (recomputesFor events).getLast? = events.getLast?.map (fun p =>
      update_graph p.gdp_A p.gdp_g p.inf_target p.inf_alpha p.unemp_natural p.unemp_beta) := by
  refine ⟨?_, ?_⟩
  · simp [recomputesFor]
  · simp only [recomputesFor]
    exact List.getLast?_map _ _

/-- C9: setting a parameter to its current value leaves the store unchanged
and emits zero change notifications; setting it to a different value emits
exactly one notification carrying the old and new value. -/
theorem set_noop_suppression (ps : List Parameter) (n : String) (cur v : ℚ)
    (h : getParam ps n = some cur) :
    (v = cur → setParam ps n v = Except.ok (ps, [])) ∧
    (v ≠ cur → ∃ ps', setParam ps n v = Except.ok (ps', [⟨n, cur, v⟩])) := by
  induction ps with
  | nil => simp [getParam] at h
  | cons p ps ih =>
    by_cases hn : p.name = n
    · rw [getParam, if_pos hn] at h
      have hpv : p.value = cur := Option.some_injective _ h
      constructor
      · intro hv
        subst hv
        simp [setParam, hn, hpv]
      · intro hv
        refine ⟨⟨n, v⟩ :: ps, ?_⟩
        simp [setParam, hn, hpv, Ne.symm hv]
    · rw [getParam, if_neg hn] at h
      obtain ⟨h₁, h₂⟩ := ih h
      constructor
      · intro hv
        simp [setParam, hn, h₁ hv]
      · intro hv
        obtain ⟨ps', hps'⟩ := h₂ hv
        exact ⟨p :: ps', by simp [setParam, hn, hps']⟩

/-- Witness for C9: on a concrete one-parameter store, setting the stored
value again yields the unchanged store and an empty notification list. -/
theorem set_noop_suppression_witness :
    getParam [⟨"gdp-A", 10⟩] "gdp-A" = some 10 ∧
    setParam [⟨"gdp-A", 10⟩] "gdp-A" 10 = Except.ok ([⟨"gdp-A", 10⟩], []) :=
  ⟨by simp [getParam],
   (set_noop_suppression [⟨"gdp-A", 10⟩] "gdp-A" 10 10 (by simp [getParam])).1 rfl⟩

end MacroDashboard
